import Mathlib

/-!
Verification of the EvilLens gravitational-lens code
(`evillens/gravitationalLens.py`, `evillens/analyticSIELens.py`).

The Python code is embedded shallowly over exact rational arithmetic:
floating-point values are modelled as the rationals the program's
expressions denote, with `np.pi` modelled as the exact rational value of
the IEEE-754 double `numpy` uses.  Arrays are modelled as total entry
functions together with their recorded dimensions; `None`-able fields
become `Option`; code paths that raise become `Except` errors.
-/

namespace EvilLens

/-- Exact rational value of the IEEE-754 double `np.pi`
(3.141592653589793115997963468544185161590576171875 = 884279719003555 / 2^48). -/
def npPi : ℚ := 884279719003555 / 281474976710656

/-- Parameters stored by `setup_grid` (`gravitationalLens.py` lines 69-80):
pixel counts `NX`, `NY`, the pixel scale in arcsec, the oversampling factor
`n`, the subpixel-scale factor `n2`, and the diagonal `offset`. -/
structure GridParams where
  NX : ℕ
  NY : ℕ
  pixscale : ℚ
  n : ℕ
  n2 : ℕ
  offset : ℚ
  deriving DecidableEq

/-- Number of samples of `np.arange(start, stop, 1.0)`:
`ceil(stop - start)` clamped at zero. -/
def arangeLen (start stop : ℚ) : ℕ := (Int.ceil (stop - start)).toNat

/-- Lens-plane x axis (line 84):
`np.arange(-NX/2.0, NX/2.0, 1.0) * pixscale + pixscale`, entry `j`. -/
def xgrid (g : GridParams) (j : ℕ) : ℚ :=
  (-(g.NX : ℚ) / 2 + j) * g.pixscale + g.pixscale

/-- Lens-plane y axis (line 85), entry `i`. -/
def ygrid (g : GridParams) (i : ℕ) : ℚ :=
  (-(g.NY : ℚ) / 2 + i) * g.pixscale + g.pixscale

/-- Line 91: `pixel_offset = offset * pixscale`. -/
def pixel_offset (g : GridParams) : ℚ := g.offset * g.pixscale

/-- Image-plane x axis (line 92):
`np.arange(-(NX//n)/2.0, (NX//n)/2.0, 1.0) * n2 * pixscale + n2 * pixscale
 - pixel_offset`, entry `l`.  `NX//n` is integer division. -/
def image_xgrid (g : GridParams) (l : ℕ) : ℚ :=
  (-((g.NX / g.n : ℕ) : ℚ) / 2 + l) * g.n2 * g.pixscale
    + g.n2 * g.pixscale - pixel_offset g

/-- Image-plane y axis (line 93), entry `k`.  The source writes the
upper range endpoint as `(self.NY/self.n)/2.0`, but this is Python 2
code (`print` statements, no `__future__` division), so `NY/n` between
ints is the same floor division `NY//n` as in the lower endpoint. -/
def image_ygrid (g : GridParams) (k : ℕ) : ℚ :=
  (-((g.NY / g.n : ℕ) : ℚ) / 2 + k) * g.n2 * g.pixscale
    + g.n2 * g.pixscale - pixel_offset g

/-- Number of image-plane x samples: length of the line-92 arange. -/
def imageXcount (g : GridParams) : ℕ :=
  arangeLen (-((g.NX / g.n : ℕ) : ℚ) / 2) (((g.NX / g.n : ℕ) : ℚ) / 2)

/-- Number of image-plane y samples: length of the line-93 arange.  Its
endpoints are `±(NY//n)/2.0` (Python 2 floor division on the upper one),
symmetric like the x axis. -/
def imageYcount (g : GridParams) : ℕ :=
  arangeLen (-((g.NY / g.n : ℕ) : ℚ) / 2) (((g.NY / g.n : ℕ) : ℚ) / 2)

/-- Shape of the meshgrid arrays `image_x`, `image_y` (line 94-95):
(number of y samples, number of x samples). -/
def imageGridShape (g : GridParams) : ℕ × ℕ := (imageYcount g, imageXcount g)

/-- A convergence map: its numpy shape and its entries (used when the
shape is 2-D, row-major as in the source). -/
structure Kmap where
  shape : List ℕ
  entry : ℕ → ℕ → ℚ

/-- A deflection-component array: recorded dimensions and entries. -/
structure Amap where
  rows : ℕ
  cols : ℕ
  entry : ℕ → ℕ → ℚ

/-- Source intensity: 2-D (single channel) or 3-D (stacked channels),
as distinguished by `len(self.source.intensity.shape)` in `raytrace`. -/
inductive SourceIntensity where
  | twoD (rows cols : ℕ) (entry : ℕ → ℕ → ℚ)
  | threeD (Naxes rows cols : ℕ) (entry : ℕ → ℕ → ℕ → ℚ)

/-- The external source collaborator.  `interp ch by bx` models the value
of the `scipy` bilinear spline of channel `ch` of the intensity at
source-plane point `(bx, by)`; the spline itself is library code outside
this repository, so its values are carried as an opaque field. -/
structure Source where
  intensity : SourceIntensity
  interp : ℕ → ℚ → ℚ → ℚ

/-- State of a `GravitationalLens` instance: the fields the claims
concern.  `None`-able Python attributes become `Option`. -/
structure Lens where
  Zd : ℚ
  Zs : ℚ
  grid : GridParams
  kappa : Option Kmap
  alpha_x : Option Amap
  alpha_y : Option Amap
  source : Option Source

/-- Grid installed by `__init__` (line 39):
`setup_grid(NX=100, NY=100, pixscale=0.1, n=1, n2=1, offset=0.5)`. -/
def defaultGrid : GridParams :=
  { NX := 100, NY := 100, pixscale := 1/10, n := 1, n2 := 1, offset := 1/2 }

/-- `GravitationalLens.__init__` (lines 25-41): source, deflection and
kappa fields start absent, with the default grid. -/
def mkLens (Zd Zs : ℚ) : Lens :=
  { Zd := Zd, Zs := Zs, grid := defaultGrid,
    kappa := none, alpha_x := none, alpha_y := none, source := none }

/-- Effect of `build_kappa_map` / `read_kappa_from` on the state: a new
kappa map is attached (and, for `read_kappa_from`, the grid is rebuilt);
the deflection and source fields are untouched. -/
def setKappaOp (L : Lens) (k : Kmap) (g : GridParams) : Lens :=
  { L with kappa := some k, grid := g }

/-!
### Deflection integrators (`deflect`, lines 188-301)

All sums range over the kappa array, whose shape is `(R, C)`; the
meshgrid identities `x[r,c] = xgrid[c]`, `y[r,c] = ygrid[r]`,
`image_x[i,j] = image_xgrid[j]`, `image_y[i,j] = image_ygrid[i]` are
applied when transcribing the numpy expressions.
-/

/-- Plain rectangle rule, x component (line 243):
`alpha_x[i,j] = 1/pi * sum(kappa * (image_x[i,j]-x)
  / ((image_x[i,j]-x)^2 + (image_y[i,j]-y)^2) * pixscale^2)`. -/
def alphaX_rect (g : GridParams) (R C : ℕ) (κ : ℕ → ℕ → ℚ) (i j : ℕ) : ℚ :=
  1 / npPi * ∑ r ∈ Finset.range R, ∑ c ∈ Finset.range C,
    κ r c * (image_xgrid g j - xgrid g c) /
      ((image_xgrid g j - xgrid g c) ^ 2 + (image_ygrid g i - ygrid g r) ^ 2)
      * g.pixscale ^ 2

/-- Plain rectangle rule, y component (line 244). -/
def alphaY_rect (g : GridParams) (R C : ℕ) (κ : ℕ → ℕ → ℚ) (i j : ℕ) : ℚ :=
  1 / npPi * ∑ r ∈ Finset.range R, ∑ c ∈ Finset.range C,
    κ r c * (image_ygrid g i - ygrid g r) /
      ((image_xgrid g j - xgrid g c) ^ 2 + (image_ygrid g i - ygrid g r) ^ 2)
      * g.pixscale ^ 2

/-- Fast rectangle rule, x component (lines 233-238):
`K = kappa/pi*pixscale^2`; for fixed column `j`,
`K2 = K*(image_x[0,j]-x)`, `x2 = (image_x[0,j]-x)^2`, and
`alpha_x[i,j] = sum(K2/(x2 + (image_y[i,j]-y)^2))`. -/
def alphaX_rectfast (g : GridParams) (R C : ℕ) (κ : ℕ → ℕ → ℚ) (i j : ℕ) : ℚ :=
  ∑ r ∈ Finset.range R, ∑ c ∈ Finset.range C,
    κ r c / npPi * g.pixscale ^ 2 * (image_xgrid g j - xgrid g c) /
      ((image_xgrid g j - xgrid g c) ^ 2 + (image_ygrid g i - ygrid g r) ^ 2)

/-- Fast rectangle rule, y component (lines 226-232): for fixed row `i`,
`K2 = K*(image_y[i,0]-y)` but `y2 = (self.image_y-self.y)**2` — the
FULL `image_y` array minus `y`, elementwise — so the denominator term is
`(image_ygrid[r] - ygrid[r])^2`, independent of `i`; then
`alpha_y[i,j] = sum(K2/(y2 + (image_x[i,j]-x)^2))`. -/
def alphaY_rectfast (g : GridParams) (R C : ℕ) (κ : ℕ → ℕ → ℚ) (i j : ℕ) : ℚ :=
  ∑ r ∈ Finset.range R, ∑ c ∈ Finset.range C,
    κ r c / npPi * g.pixscale ^ 2 * (image_ygrid g i - ygrid g r) /
      ((image_ygrid g r - ygrid g r) ^ 2 + (image_xgrid g j - xgrid g c) ^ 2)

/-- Trapezoidal weight array (lines 250-256), transcribed slice by slice
in statement order:
`weights = zeros`; the four corner entries are set to `1.0`;
`weights[0:,1:-1] = 2.0` overwrites columns `1..C-2` of every row;
`weights[1:-1,0:] += 2.0` adds `2.0` on rows `1..R-2` of every column. -/
def trapWeights (R C r c : ℕ) : ℚ :=
  let w0 : ℚ := 0
  let w1 := if r = 0 ∧ c = 0 then 1 else w0
  let w2 := if r = R - 1 ∧ c = 0 then 1 else w1
  let w3 := if r = 0 ∧ c = C - 1 then 1 else w2
  let w4 := if r = R - 1 ∧ c = C - 1 then 1 else w3
  let w5 := if 1 ≤ c ∧ c ≤ C - 2 then 2 else w4
  let w6 := if 1 ≤ r ∧ r ≤ R - 2 then w5 + 2 else w5
  w6

/-- Weighted trapezoidal kernel (line 257):
`K = 1.0/(np.pi*4.0) * weights * kappa * pixscale^2`. -/
def trapK (g : GridParams) (R C : ℕ) (κ : ℕ → ℕ → ℚ) (r c : ℕ) : ℚ :=
  1 / (npPi * 4) * trapWeights R C r c * κ r c * g.pixscale ^ 2

/-- Plain trapezoidal rule, x component (lines 280-282). -/
def alphaX_trap (g : GridParams) (R C : ℕ) (κ : ℕ → ℕ → ℚ) (i j : ℕ) : ℚ :=
  ∑ r ∈ Finset.range R, ∑ c ∈ Finset.range C,
    trapK g R C κ r c * (image_xgrid g j - xgrid g c) /
      ((image_xgrid g j - xgrid g c) ^ 2 + (image_ygrid g i - ygrid g r) ^ 2)

/-- Plain trapezoidal rule, y component (lines 284-286). -/
def alphaY_trap (g : GridParams) (R C : ℕ) (κ : ℕ → ℕ → ℚ) (i j : ℕ) : ℚ :=
  ∑ r ∈ Finset.range R, ∑ c ∈ Finset.range C,
    trapK g R C κ r c * (image_ygrid g i - ygrid g r) /
      ((image_xgrid g j - xgrid g c) ^ 2 + (image_ygrid g i - ygrid g r) ^ 2)

/-- Fast trapezoidal rule, y component (lines 260-266): here the source
does use the row-fixed value, `y2 = (image_y[i,0]-y)^2`. -/
def alphaY_trapfast (g : GridParams) (R C : ℕ) (κ : ℕ → ℕ → ℚ) (i j : ℕ) : ℚ :=
  ∑ r ∈ Finset.range R, ∑ c ∈ Finset.range C,
    trapK g R C κ r c * (image_ygrid g i - ygrid g r) /
      ((image_ygrid g i - ygrid g r) ^ 2 + (image_xgrid g j - xgrid g c) ^ 2)

/-- Fast trapezoidal rule, x component (lines 267-273). -/
def alphaX_trapfast (g : GridParams) (R C : ℕ) (κ : ℕ → ℕ → ℚ) (i j : ℕ) : ℚ :=
  ∑ r ∈ Finset.range R, ∑ c ∈ Finset.range C,
    trapK g R C κ r c * (image_xgrid g j - xgrid g c) /
      ((image_xgrid g j - xgrid g c) ^ 2 + (image_ygrid g i - ygrid g r) ^ 2)

/-- `deflect` raises a plain `Exception` when the attached kappa map is
not 2-D (line 299). -/
inductive DeflectError where
  | kappaNotTwoD
  deriving DecidableEq

/-- Values `deflect` obtains from outside the transcribed arithmetic:
`simpsX`/`simpsY` are the entries produced by the nested
`scipy.integrate.simps` calls (library code external to this repository),
and `junkX`/`junkY` are the contents of the two uninitialized `np.empty`
arrays created at lines 196-197 (indeterminate memory). -/
structure DeflectOracles where
  simpsX : ℕ → ℕ → ℚ
  simpsY : ℕ → ℕ → ℚ
  junkX : ℕ → ℕ → ℚ
  junkY : ℕ → ℕ → ℚ

/-- `GravitationalLens.deflect` (lines 188-301).  With no kappa attached,
both deflection fields are set to `None` (lines 190-192).  With a 2-D
kappa, the `alpha` arrays (shape `image_x.shape`, lines 196-197) are
filled according to the method string and then assigned (lines 294-295);
an unrecognized method only prints two warnings, so the `np.empty`
contents are assigned unchanged.  A kappa of any other dimensionality
raises (line 299), leaving the state unmodified. -/
def deflect (L : Lens) (o : DeflectOracles) (method : String) (fast : Bool) :
    Except DeflectError Lens :=
  match L.kappa with
  | none => .ok { L with alpha_x := none, alpha_y := none }
  | some k =>
    if k.shape.length = 2 then
      let R := k.shape.headD 0
      let C := (k.shape.drop 1).headD 0
      let rows := imageYcount L.grid
      let cols := imageXcount L.grid
      if method = "simpsons" then
        .ok { L with alpha_x := some ⟨rows, cols, o.simpsX⟩,
                     alpha_y := some ⟨rows, cols, o.simpsY⟩ }
      else if method = "rectangles" then
        if fast then
          .ok { L with
                alpha_x := some ⟨rows, cols, alphaX_rectfast L.grid R C k.entry⟩,
                alpha_y := some ⟨rows, cols, alphaY_rectfast L.grid R C k.entry⟩ }
        else
          .ok { L with
                alpha_x := some ⟨rows, cols, alphaX_rect L.grid R C k.entry⟩,
                alpha_y := some ⟨rows, cols, alphaY_rect L.grid R C k.entry⟩ }
      else if method = "trapezoidal" then
        if fast then
          .ok { L with
                alpha_x := some ⟨rows, cols, alphaX_trapfast L.grid R C k.entry⟩,
                alpha_y := some ⟨rows, cols, alphaY_trapfast L.grid R C k.entry⟩ }
        else
          .ok { L with
                alpha_x := some ⟨rows, cols, alphaX_trap L.grid R C k.entry⟩,
                alpha_y := some ⟨rows, cols, alphaY_trap L.grid R C k.entry⟩ }
      else
        .ok { L with alpha_x := some ⟨rows, cols, o.junkX⟩,
                     alpha_y := some ⟨rows, cols, o.junkY⟩ }
    else .error .kappaNotTwoD

/-- `AnalyticSIELens.deflect` (`analyticSIELens.py` lines 46-55): both
deflection components are assigned arrays of the image-grid shape,
computed from `arctan`/`arctanh` expressions over the image grid.  The
transcendental entries come from numpy library routines, so they are
carried as parameters; no claim depends on their values. -/
def sieDeflectOp (L : Lens) (sx sy : ℕ → ℕ → ℚ) : Lens :=
  { L with alpha_x := some ⟨imageYcount L.grid, imageXcount L.grid, sx⟩,
           alpha_y := some ⟨imageYcount L.grid, imageXcount L.grid, sy⟩ }

/-!
### Ray tracing (`raytrace`, lines 542-594)
-/

/-- Observed image: a single plane or `Naxes` stacked planes, with the
recorded numpy dimensions (`rows`, `cols` are the trailing two axes). -/
inductive ObsImage where
  | single (rows cols : ℕ) (entry : ℕ → ℕ → ℚ)
  | multi (naxes rows cols : ℕ) (entry : ℕ → ℕ → ℕ → ℚ)

/-- Trailing two dimensions of an observed image. -/
def obsPlaneShape : ObsImage → ℕ × ℕ
  | .single r c _ => (r, c)
  | .multi _ r c _ => (r, c)

/-- Channel count of an observed image: `none` for a single plane. -/
def obsChannels : ObsImage → Option ℕ
  | .single _ _ _ => none
  | .multi n _ _ _ => some n

/-- Failure modes of `raytrace`: the explicit raise at line 553 when no
source is attached (the `NoSourceAttached` failure); the `TypeError`
numpy raises at lines 566-567 when `theta - alpha` subtracts an absent
(`None`) deflection component; and the `IndexError` raised when the fill
loops index `beta_x`/`beta_y` (shape `image_x.shape`) out of bounds.
`deflectionNotComputed` is the dedicated precondition failure the design
prescribes for an unpopulated deflection field; the code contains no
such check, so no execution path produces it. -/
inductive RTError where
  | noSourceAttached
  | typeErr
  | indexErr
  | deflectionNotComputed
  deriving DecidableEq

/-- `GravitationalLens.raytrace` (lines 542-594).  After the source check,
`beta = theta - alpha` with `theta` a copy of the image grid; a 2-D
source fills an `NY//n` by `NX//n` image from `beta_y[i,j], beta_x[i,j]`
(lines 570-582), a 3-D source fills `Naxes` planes of `NX//n` by `NY//n`
from `beta_y[j,k], beta_x[j,k]` (lines 584-592).  Loops whose index
ranges exceed the `beta` array bounds raise `IndexError` at the first
access; empty loop ranges perform no access. -/
def raytrace (L : Lens) : Except RTError ObsImage :=
  match L.source with
  | none => .error .noSourceAttached
  | some src =>
    match L.alpha_x, L.alpha_y with
    | some ax, some ay =>
      let g := L.grid
      let betaX : ℕ → ℕ → ℚ := fun i j => image_xgrid g j - ax.entry i j
      let betaY : ℕ → ℕ → ℚ := fun i j => image_ygrid g i - ay.entry i j
      match src.intensity with
      | .twoD _ _ _ =>
        if g.NY / g.n ≠ 0 ∧ g.NX / g.n ≠ 0 ∧
            (imageYcount g < g.NY / g.n ∨ imageXcount g < g.NX / g.n) then
          .error .indexErr
        else
          .ok (.single (g.NY / g.n) (g.NX / g.n)
            (fun i j => src.interp 0 (betaY i j) (betaX i j)))
      | .threeD Naxes _ _ _ =>
        if Naxes ≠ 0 ∧ g.NX / g.n ≠ 0 ∧ g.NY / g.n ≠ 0 ∧
            (imageYcount g < g.NX / g.n ∨ imageXcount g < g.NY / g.n) then
          .error .indexErr
        else
          .ok (.multi Naxes (g.NX / g.n) (g.NY / g.n)
            (fun ch j k => src.interp ch (betaY j k) (betaX j k)))
    | _, _ => .error .typeErr

/-!
### Lens algebra (`__add__` lines 598-630, `__sub__` lines 634-665)
-/

/-- Failure modes of `__add__`/`__sub__`: the `AttributeError` from
dereferencing `self.kappa.shape`/`right.kappa.shape` when a kappa map is
absent (lines 608-609); the `AssertionError` from the compatibility
asserts (lines 608-612), which is the `IncompatibleLenses` failure; the
`ValueError` from unpacking a non-2-element shape at line 615; and the
`TypeError` numpy raises when an absent `alpha_y` is combined at
line 627/663.  (The `issubclass` operand-type check at line 606 always
passes in this single-class model.) -/
inductive LensOpError where
  | attributeErr
  | incompatibleLenses
  | valueErr
  | typeErr
  deriving DecidableEq

/-- Elementwise combination of two deflection arrays, dimensions taken
from the left operand (numpy elementwise arithmetic). -/
def combineAmap (f : ℚ → ℚ → ℚ) (u v : Amap) : Amap :=
  ⟨u.rows, u.cols, fun i j => f (u.entry i j) (v.entry i j)⟩

/-- Deflection handling shared by `__add__` (lines 625-627) and `__sub__`
(lines 661-663): the guard tests only `alpha_x` of both operands; when it
passes, `alpha_y` is combined unconditionally, so an absent `alpha_y`
raises `TypeError` inside numpy. -/
def combineAlpha (f : ℚ → ℚ → ℚ) (A B : Lens) :
    Except LensOpError (Option Amap × Option Amap) :=
  match A.alpha_x, B.alpha_x with
  | some ux, some vx =>
    match A.alpha_y, B.alpha_y with
    | some uy, some vy => .ok (some (combineAmap f ux vx), some (combineAmap f uy vy))
    | _, _ => .error .typeErr
  | _, _ => .ok (none, none)

/-- Common body of `__add__` and `__sub__` with the pointwise operation
`f` abstracted: dereference both kappa maps, run the compatibility
asserts, build a fresh `GravitationalLens(self.Zd, self.Zs)` whose grid
takes `NX, NY` from the kappa shape and `pixscale`, `n`, `n2` from the
left operand (`offset` keeps the constructor default `0.5`), combine the
kappa maps (both are present here, so the line-623 guard passes), and
combine the deflection fields. -/
def lensCombine (f : ℚ → ℚ → ℚ) (A B : Lens) : Except LensOpError Lens :=
  match A.kappa, B.kappa with
  | some kA, some kB =>
    if kA.shape.length = kB.shape.length ∧ kA.shape = kB.shape ∧
        |A.grid.pixscale - B.grid.pixscale| < 1 / 10 ^ 10 ∧
        A.grid.n = B.grid.n ∧ A.grid.n2 = B.grid.n2 then
      match kA.shape with
      | [s0, s1] =>
        match combineAlpha f A B with
        | .error e => .error e
        | .ok (ax, ay) =>
          .ok { Zd := A.Zd, Zs := A.Zs,
                grid := { NX := s0, NY := s1, pixscale := A.grid.pixscale,
                          n := A.grid.n, n2 := A.grid.n2, offset := 1/2 },
                kappa := some ⟨kA.shape, fun r c => f (kA.entry r c) (kB.entry r c)⟩,
                alpha_x := ax, alpha_y := ay, source := none }
      | _ => .error .valueErr
    else .error .incompatibleLenses
  | _, _ => .error .attributeErr

/-- `GravitationalLens.__add__`. -/
def lensAdd (A B : Lens) : Except LensOpError Lens := lensCombine (· + ·) A B

/-- `GravitationalLens.__sub__`. -/
def lensSub (A B : Lens) : Except LensOpError Lens := lensCombine (· - ·) A B

/-!
### Reachable lens states
-/

/-- Lens states reachable through the public operations: construction,
attaching a kappa map (`build_kappa_map` / `read_kappa_from`), `deflect`
of either class, addition and subtraction.  Operations that raise leave
the prior state, which is already reachable. -/
inductive Reachable : Lens → Prop where
  | construct (Zd Zs : ℚ) : Reachable (mkLens Zd Zs)
  | setKappa (L : Lens) (k : Kmap) (g : GridParams) :
      Reachable L → Reachable (setKappaOp L k g)
  | deflectStep (L : Lens) (o : DeflectOracles) (method : String) (fast : Bool)
      (L' : Lens) : Reachable L → deflect L o method fast = .ok L' → Reachable L'
  | sieDeflect (L : Lens) (sx sy : ℕ → ℕ → ℚ) :
      Reachable L → Reachable (sieDeflectOp L sx sy)
  | addStep (A B C : Lens) :
      Reachable A → Reachable B → lensAdd A B = .ok C → Reachable C
  | subStep (A B C : Lens) :
      Reachable A → Reachable B → lensSub A B = .ok C → Reachable C

/-!
### Theorems
-/

/-- C8: in the trapezoidal method the weight array gives the four corner
samples weight 1, non-corner edge samples weight 2 and interior samples
weight 4, and the weighted kernel is `(1/(4*pi)) * weights * kappa *
pixscale^2`, for every 2-D kappa shape with at least 2 samples per
axis. -/
theorem C8_trapezoidal_weights (R C r c : ℕ) (g : GridParams) (κ : ℕ → ℕ → ℚ)
    (hR : 2 ≤ R) (hC : 2 ≤ C) (hr : r < R) (hc : c < C) :
    trapWeights R C r c =
      (if (r = 0 ∨ r = R - 1) ∧ (c = 0 ∨ c = C - 1) then 1
       else if r = 0 ∨ r = R - 1 ∨ c = 0 ∨ c = C - 1 then 2 else 4) ∧
    trapK g R C κ r c =
      1 / (4 * npPi) * trapWeights R C r c * κ r c * g.pixscale ^ 2 := by
  constructor
  · dsimp only [trapWeights]
    split_ifs <;> first | rfl | (exfalso; omega) | norm_num
  · dsimp only [trapK]
    ring

/-- C8 witness: at a 3-by-3 kappa shape the interior sample gets
weight 4 and the kernel is the stated multiple of it. -/
theorem C8_trapezoidal_weights_witness :
    trapWeights 3 3 1 1 =
      (if ((1:ℕ) = 0 ∨ (1:ℕ) = 3 - 1) ∧ ((1:ℕ) = 0 ∨ (1:ℕ) = 3 - 1) then 1
       else if (1:ℕ) = 0 ∨ (1:ℕ) = 3 - 1 ∨ (1:ℕ) = 0 ∨ (1:ℕ) = 3 - 1 then 2 else 4) ∧
    trapK defaultGrid 3 3 (fun _ _ => 1) 1 1 =
      1 / (4 * npPi) * trapWeights 3 3 1 1 * (1:ℚ) * defaultGrid.pixscale ^ 2 :=
  C8_trapezoidal_weights 3 3 1 1 defaultGrid (fun _ _ => 1)
    (by norm_num) (by norm_num) (by norm_num) (by norm_num)

/-- C7 (amended): `pixel_offset = offset * pixscale` is nonzero whenever
`offset` is nonzero (the pixel scale being positive), and for grids with
`n = n2 = 1` and a non-integer `offset` no image-plane coordinate pair
equals any lens-plane coordinate pair. -/
theorem C7_grid_offset_invariant (g : GridParams) (hps : 0 < g.pixscale) :
    (g.offset ≠ 0 → pixel_offset g ≠ 0) ∧
    (g.n = 1 → g.n2 = 1 → g.offset.den ≠ 1 →
      ∀ k l i j, (image_xgrid g l, image_ygrid g k) ≠ (xgrid g j, ygrid g i)) := by
  constructor
  · intro ho
    exact mul_ne_zero ho (ne_of_gt hps)
  · intro hn hn2 hden k l i j hpair
    rw [Prod.mk.injEq] at hpair
    obtain ⟨h1, -⟩ := hpair
    rw [image_xgrid, xgrid, pixel_offset, hn, hn2] at h1
    have h2 : ((l : ℚ) - (j : ℚ) - g.offset) * g.pixscale = 0 := by
      simp only [Nat.div_one, Nat.cast_one] at h1
      ring_nf
      ring_nf at h1
      linarith
    have h3 : (l : ℚ) - (j : ℚ) - g.offset = 0 :=
      (mul_eq_zero.mp h2).resolve_right (ne_of_gt hps)
    have h4 : g.offset = (((l : ℤ) - (j : ℤ) : ℤ) : ℚ) := by
      push_cast
      linarith
    have h5 : g.offset.den = 1 := by
      rw [h4]
      exact Rat.den_intCast _
    exact hden h5

/-- Grid with the integer offset 1 used to refute C7 as stated. -/
def gBad : GridParams :=
  { NX := 2, NY := 2, pixscale := 1, n := 1, n2 := 1, offset := 1 }

/-- C7 counterexample: with valid construction parameters (positive
pixel counts and pixel scale) and the nonzero offset 1, the image-plane
sample `(k,l) = (1,1)` coincides exactly with the lens-plane sample
`(i,j) = (0,0)`, refuting the claimed invariant for general valid
parameters. -/
theorem C7_integer_offset_counterexample :
    (0 < gBad.NX ∧ 0 < gBad.NY ∧ 0 < gBad.pixscale ∧ gBad.offset ≠ 0) ∧
    image_xgrid gBad 1 = xgrid gBad 0 ∧ image_ygrid gBad 1 = ygrid gBad 0 := by
  refine ⟨⟨by norm_num [gBad], by norm_num [gBad], by norm_num [gBad], by norm_num [gBad]⟩, ?_, ?_⟩ <;>
    norm_num [image_xgrid, image_ygrid, xgrid, ygrid, pixel_offset, gBad]

/-- C7 witness: on the default grid (offset `0.5`, pixscale `0.1`) the
pixel offset is nonzero and the image sample `(0,0)` differs from the
lens sample `(0,0)`. -/
theorem C7_grid_offset_invariant_witness :
    pixel_offset defaultGrid ≠ 0 ∧
    (image_xgrid defaultGrid 0, image_ygrid defaultGrid 0) ≠
      (xgrid defaultGrid 0, ygrid defaultGrid 0) :=
  ⟨(C7_grid_offset_invariant defaultGrid (by norm_num [defaultGrid])).1
      (by norm_num [defaultGrid]),
   (C7_grid_offset_invariant defaultGrid (by norm_num [defaultGrid])).2
      rfl rfl (by norm_num [defaultGrid]) 0 0 0 0⟩

/-- Lens with a 2-by-2 kappa map attached, used to exercise `deflect`. -/
def cl2 : Lens :=
  { mkLens 1 2 with
    grid := { NX := 2, NY := 2, pixscale := 1, n := 1, n2 := 1, offset := 1/2 },
    kappa := some ⟨[2, 2], fun _ _ => 1⟩ }

/-- C2: calling `deflect` with an unrecognized method name on a lens with
a 2-D convergence field does NOT fail: whatever the two uninitialized
`np.empty` arrays hold, the call returns normally after printing two
warnings and assigns those arrays to `alpha_x` and `alpha_y`.  This
refutes the claimed hard failure with `InvalidIntegrationMethod` and the
claim that the deflection fields are left unset. -/
theorem C2_unknown_method_assigns_junk (o : DeflectOracles) :
    ∃ L', deflect cl2 o "nonsense" false = Except.ok L' ∧
      L'.alpha_x.isSome = true ∧ L'.alpha_y.isSome = true := by
  refine ⟨_, rfl, rfl, rfl⟩

/-- Grid of the C1 counterexample: a 1-by-2 kappa map (`NX = 1`,
`NY = 2`) at unit pixel scale with the default offset. -/
def g1 : GridParams :=
  { NX := 1, NY := 2, pixscale := 1, n := 1, n2 := 1, offset := 1/2 }

/-- C1: the fast and plain rectangle rules disagree on `alpha_y`.  On a
uniform kappa of 1 over the `g1` grid, at image pixel `(0,0)`, the fast
variant yields `-4/pi` while the plain rule yields `-(8/5)/pi`: the
line-229 `y2 = (self.image_y-self.y)**2` uses the full `image_y` array
elementwise instead of the row value `image_y[i,0]`, so the two variants
are not the same mathematics. -/
theorem C1_rect_fast_divergence :
    alphaY_rectfast g1 2 1 (fun _ _ => 1) 0 0 = -4 / npPi ∧
    alphaY_rect g1 2 1 (fun _ _ => 1) 0 0 = -(8/5) / npPi ∧
    alphaY_rectfast g1 2 1 (fun _ _ => 1) 0 0 ≠
      alphaY_rect g1 2 1 (fun _ _ => 1) 0 0 := by
  refine ⟨?_, ?_, ?_⟩ <;>
    norm_num [alphaY_rectfast, alphaY_rect, Finset.sum_range_succ,
      Finset.sum_range_zero, image_xgrid, image_ygrid, xgrid, ygrid,
      pixel_offset, g1, npPi]

/-- C3 (amended): `raytrace` fails on the no-source raise whenever no
source is attached; when a source is attached but either deflection
component is unpopulated it fails with the numpy `TypeError` from the
`theta - alpha` subtraction, not with a dedicated `DeflectionNotComputed`
failure; an observed image is produced only when a source is attached and
both deflection components are populated. -/
theorem C3_raytrace_error_kinds (L : Lens) :
    (L.source = none → raytrace L = .error .noSourceAttached) ∧
    (L.source.isSome = true → (L.alpha_x = none ∨ L.alpha_y = none) →
      raytrace L = .error .typeErr) ∧
    (∀ img, raytrace L = .ok img →
      L.source.isSome = true ∧ L.alpha_x.isSome = true ∧ L.alpha_y.isSome = true) := by
  refine ⟨?_, ?_, ?_⟩
  · intro hs
    rw [raytrace, hs]
  · intro hs hα
    rcases hsrc : L.source with _ | src
    · rw [hsrc] at hs
      simp at hs
    rcases hx : L.alpha_x with _ | ax
    · simp only [raytrace, hsrc, hx]
    rcases hy : L.alpha_y with _ | ay
    · simp only [raytrace, hsrc, hx, hy]
    rw [hx, hy] at hα
    rcases hα with hα | hα <;> exact Option.noConfusion hα
  · intro img h
    rcases hsrc : L.source with _ | src <;>
      rcases hx : L.alpha_x with _ | ax <;> rcases hy : L.alpha_y with _ | ay <;>
      simp only [raytrace, hsrc, hx, hy] at h <;> simp_all

/-- Source collaborator with constant zero intensity used in concrete
raytrace states. -/
def src0 : Source := ⟨.twoD 2 2 (fun _ _ => 0), fun _ _ _ => 0⟩

/-- Lens with a source attached but no deflection computed. -/
def cl3 : Lens := { mkLens 1 2 with source := some src0 }

/-- C3 counterexample: on a lens with a source attached and no deflection
computed, `raytrace` fails with the numpy `TypeError` from the
`theta - alpha` subtraction, not with `DeflectionNotComputed` as the
claim states. -/
theorem C3_missing_deflection_counterexample :
    cl3.alpha_x = none ∧ cl3.source.isSome = true ∧
    raytrace cl3 = Except.error RTError.typeErr ∧
    raytrace cl3 ≠ Except.error RTError.deflectionNotComputed := by
  refine ⟨rfl, rfl, rfl, ?_⟩
  intro h
  have h2 : RTError.typeErr = RTError.deflectionNotComputed := by
    have h1 : Except.error (ε := RTError) (α := ObsImage) RTError.typeErr =
        Except.error RTError.deflectionNotComputed := h
    injection h1
  exact absurd h2 (by decide)

/-- C3 witness: the amended theorem applied to `cl3` (source attached,
deflection unset) and to a bare constructed lens (no source). -/
theorem C3_raytrace_error_kinds_witness :
    raytrace cl3 = Except.error RTError.typeErr ∧
    raytrace (mkLens 1 2) = Except.error RTError.noSourceAttached :=
  ⟨(C3_raytrace_error_kinds cl3).2.1 rfl (Or.inl rfl),
   (C3_raytrace_error_kinds (mkLens 1 2)).1 rfl⟩

/-- Number of image-plane x samples is `NX // n` (the line-92 arange has
matching endpoints). -/
theorem imageXcount_eq (g : GridParams) : imageXcount g = g.NX / g.n := by
  rw [imageXcount, arangeLen]
  have h : ((g.NX / g.n : ℕ) : ℚ) / 2 - -((g.NX / g.n : ℕ) : ℚ) / 2 =
      ((g.NX / g.n : ℕ) : ℚ) := by ring
  rw [h, Int.ceil_natCast, Int.toNat_natCast]

/-- Number of image-plane y samples is `NY // n`: the line-93 arange
also has matching endpoints (Python 2 floor division). -/
theorem imageYcount_eq (g : GridParams) : imageYcount g = g.NY / g.n := by
  rw [imageYcount, arangeLen]
  have h : ((g.NY / g.n : ℕ) : ℚ) / 2 - -((g.NY / g.n : ℕ) : ℚ) / 2 =
      ((g.NY / g.n : ℕ) : ℚ) := by ring
  rw [h, Int.ceil_natCast, Int.toNat_natCast]

/-- C9 (amended): whenever `raytrace` succeeds, a single-channel image
has shape `(NY//n, NX//n)`, which always equals the image-plane grid
shape; a multi-channel image has `Naxes` planes of shape
`(NX//n, NY//n)` — the transpose — and whenever the image is nonempty
(`Naxes`, `NX//n`, `NY//n` all positive) the fill-loop bounds force
`NX//n = NY//n`, so the plane shape again equals the (then square) grid
shape; a degenerate empty multi-channel image can carry transposed,
unequal dimensions. -/
theorem C9_image_shape (L : Lens) (img : ObsImage)
    (h : raytrace L = .ok img) :
    (obsChannels img = none →
      obsPlaneShape img = (L.grid.NY / L.grid.n, L.grid.NX / L.grid.n) ∧
      obsPlaneShape img = imageGridShape L.grid) ∧
    (∀ nx, obsChannels img = some nx →
      obsPlaneShape img = (L.grid.NX / L.grid.n, L.grid.NY / L.grid.n) ∧
      (0 < nx → 0 < L.grid.NX / L.grid.n →
        0 < L.grid.NY / L.grid.n → obsPlaneShape img = imageGridShape L.grid)) := by
  rcases hsrc : L.source with _ | src
  · rw [raytrace, hsrc] at h
    exact Except.noConfusion h
  rcases hx : L.alpha_x with _ | ax
  · simp only [raytrace, hsrc, hx] at h
    exact Except.noConfusion h
  rcases hy : L.alpha_y with _ | ay
  · simp only [raytrace, hsrc, hx, hy] at h
    exact Except.noConfusion h
  simp only [raytrace, hsrc, hx, hy] at h
  rcases hint : src.intensity with ⟨rows, cols, f⟩ | ⟨Naxes, rows, cols, f⟩
  · simp only [hint] at h
    split at h
    · exact Except.noConfusion h
    obtain rfl := (Except.ok.injEq _ _).mp h
    constructor
    · intro _
      refine ⟨rfl, ?_⟩
      rw [obsPlaneShape, imageGridShape, imageXcount_eq, imageYcount_eq]
    · intro nx hnx
      simp [obsChannels] at hnx
  · simp only [hint] at h
    split at h
    · exact Except.noConfusion h
    rename_i hbound
    obtain rfl := (Except.ok.injEq _ _).mp h
    constructor
    · intro hc
      simp [obsChannels] at hc
    · intro nx hnx
      obtain rfl : Naxes = nx := by simpa [obsChannels] using hnx
      refine ⟨rfl, fun hnx0 hx0 hy0 => ?_⟩
      rw [imageYcount_eq, imageXcount_eq] at hbound
      have hxy : L.grid.NX / L.grid.n = L.grid.NY / L.grid.n := by omega
      rw [obsPlaneShape, imageGridShape, imageXcount_eq, imageYcount_eq, hxy]

/-- Evaluation of `raytrace` on a single-channel source when the fill
loops stay within the `beta` array bounds. -/
theorem raytrace_twoD_eq (L : Lens) (src : Source) (ax ay : Amap)
    (rows cols : ℕ) (fI : ℕ → ℕ → ℚ)
    (hs : L.source = some src) (hx : L.alpha_x = some ax)
    (hy : L.alpha_y = some ay) (hint : src.intensity = .twoD rows cols fI)
    (hcond : ¬(L.grid.NY / L.grid.n ≠ 0 ∧ L.grid.NX / L.grid.n ≠ 0 ∧
      (imageYcount L.grid < L.grid.NY / L.grid.n ∨
       imageXcount L.grid < L.grid.NX / L.grid.n))) :
    raytrace L = Except.ok (.single (L.grid.NY / L.grid.n) (L.grid.NX / L.grid.n)
      (fun i j => src.interp 0 (image_ygrid L.grid i - ay.entry i j)
        (image_xgrid L.grid j - ax.entry i j))) := by
  rw [raytrace, hs]
  simp only [hx, hy, hint]
  rw [if_neg hcond]

/-- Evaluation of `raytrace` on a multi-channel source when no fill-loop
access goes out of bounds (in particular when some loop range is
empty). -/
theorem raytrace_threeD_eq (L : Lens) (src : Source) (ax ay : Amap)
    (Naxes rows cols : ℕ) (fI : ℕ → ℕ → ℕ → ℚ)
    (hs : L.source = some src) (hx : L.alpha_x = some ax)
    (hy : L.alpha_y = some ay) (hint : src.intensity = .threeD Naxes rows cols fI)
    (hcond : ¬(Naxes ≠ 0 ∧ L.grid.NX / L.grid.n ≠ 0 ∧ L.grid.NY / L.grid.n ≠ 0 ∧
      (imageYcount L.grid < L.grid.NX / L.grid.n ∨
       imageXcount L.grid < L.grid.NY / L.grid.n))) :
    raytrace L = Except.ok (.multi Naxes (L.grid.NX / L.grid.n) (L.grid.NY / L.grid.n)
      (fun ch j k => src.interp ch (image_ygrid L.grid j - ay.entry j k)
        (image_xgrid L.grid k - ax.entry j k))) := by
  rw [raytrace, hs]
  simp only [hx, hy, hint]
  rw [if_neg hcond]

/-- Grid of the C9 counterexample: `NY = 1 < n = 2`, so the image grid
has zero rows while `NX // n = 2`. -/
def g9 : GridParams := { NX := 4, NY := 1, pixscale := 1, n := 2, n2 := 1, offset := 1/2 }

/-- Lens with a 3-D (one-channel) source on the degenerate `g9` grid. -/
def cl9 : Lens :=
  { Zd := 1, Zs := 2, grid := g9, kappa := none,
    alpha_x := some ⟨0, 2, fun _ _ => 0⟩, alpha_y := some ⟨0, 2, fun _ _ => 0⟩,
    source := some ⟨.threeD 1 4 4 (fun _ _ _ => 0), fun _ _ _ => 0⟩ }

/-- C9 counterexample: on the `g9` grid a multi-channel `raytrace`
succeeds (the `NY//n = 0` fill loop never runs, so no `IndexError`) with
one plane of shape `(2, 0)` — allocated `(Naxes, NX//n, NY//n)` at
line 585 — while the image-plane grid `image_x` has shape `(0, 2)`: the
plane's pixel dimensions are the transpose of, and unequal to, the
image-plane grid's. -/
theorem C9_shape_counterexample :
    Except.map obsPlaneShape (raytrace cl9) = Except.ok (2, 0) ∧
    imageGridShape cl9.grid = (0, 2) ∧ ((2, 0) : ℕ × ℕ) ≠ (0, 2) := by
  have h := raytrace_threeD_eq cl9 _ _ _ 1 4 4 _ rfl rfl rfl rfl
    (by
      rintro ⟨-, -, h0, -⟩
      exact h0 (by norm_num [cl9, g9]))
  refine ⟨?_, ?_, by decide⟩
  · rw [h]
    show Except.ok (obsPlaneShape _) = _
    rw [obsPlaneShape]
    show Except.ok (g9.NX / g9.n, g9.NY / g9.n) = _
    norm_num [g9]
  · show (imageYcount g9, imageXcount g9) = (0, 2)
    rw [imageYcount_eq, imageXcount_eq]
    norm_num [g9]

/-- Oversampled 6-by-5 grid for the C9 witness (`n = 2` need not divide
`NY`: both axes floor to `NY//n = 2`, `NX//n = 3`). -/
def g9b : GridParams := { NX := 6, NY := 5, pixscale := 1, n := 2, n2 := 1, offset := 1/2 }

/-- Lens with a single-channel source on the `g9b` grid. -/
def cl9b : Lens :=
  { Zd := 1, Zs := 2, grid := g9b, kappa := none,
    alpha_x := some ⟨2, 3, fun _ _ => 0⟩, alpha_y := some ⟨2, 3, fun _ _ => 0⟩,
    source := some ⟨.twoD 5 6 (fun _ _ => 0), fun _ _ _ => 0⟩ }

/-- C9 witness: a successful single-channel raytrace whose image has
exactly the image-plane grid shape. -/
theorem C9_image_shape_witness :
    Except.map obsPlaneShape (raytrace cl9b) =
      Except.ok (imageGridShape cl9b.grid) := by
  have himg := raytrace_twoD_eq cl9b _ _ _ 5 6 _ rfl rfl rfl rfl
    (by
      rw [imageYcount_eq, imageXcount_eq]
      rintro ⟨-, -, hlt⟩
      omega)
  have h := ((C9_image_shape cl9b _ himg).1 rfl).2
  rw [himg]
  show Except.ok (obsPlaneShape _) = _
  rw [h]

/-- Fields of a lens produced by `__add__`/`__sub__`: both operands had
kappa maps attached (the asserts dereference them), the result has one,
and the deflection fields are either both skipped (absent) or, when all
four operand components were present, both combined. -/
theorem lensCombine_fields (f : ℚ → ℚ → ℚ) (A B C : Lens)
    (h : lensCombine f A B = .ok C) :
    A.kappa.isSome = true ∧ B.kappa.isSome = true ∧ C.kappa.isSome = true ∧
    ((C.alpha_x = none ∧ C.alpha_y = none) ∨
     (A.alpha_x.isSome = true ∧ B.alpha_x.isSome = true ∧
      A.alpha_y.isSome = true ∧ B.alpha_y.isSome = true ∧
      C.alpha_x.isSome = true ∧ C.alpha_y.isSome = true)) := by
  rcases hka : A.kappa with _ | kA
  · rw [lensCombine, hka] at h
    exact Except.noConfusion h
  rcases hkb : B.kappa with _ | kB
  · rw [lensCombine, hka, hkb] at h
    exact Except.noConfusion h
  rw [lensCombine, hka, hkb] at h
  dsimp only at h
  split at h
  case isFalse => exact Except.noConfusion h
  split at h
  case h_2 => exact Except.noConfusion h
  rename_i s0 s1
  refine ⟨rfl, rfl, ?_⟩
  rcases hax : A.alpha_x with _ | ux
  · simp only [combineAlpha, hax] at h
    obtain rfl := (Except.ok.injEq _ _).mp h
    exact ⟨rfl, Or.inl ⟨rfl, rfl⟩⟩
  rcases hbx : B.alpha_x with _ | vx
  · simp only [combineAlpha, hax, hbx] at h
    obtain rfl := (Except.ok.injEq _ _).mp h
    exact ⟨rfl, Or.inl ⟨rfl, rfl⟩⟩
  rcases hay : A.alpha_y with _ | uy
  · simp only [combineAlpha, hax, hbx, hay] at h
    exact Except.noConfusion h
  rcases hby : B.alpha_y with _ | vy
  · simp only [combineAlpha, hax, hbx, hay, hby] at h
    exact Except.noConfusion h
  simp only [combineAlpha, hax, hbx, hay, hby] at h
  obtain rfl := (Except.ok.injEq _ _).mp h
  exact ⟨rfl, Or.inr ⟨rfl, rfl, rfl, rfl, rfl, rfl⟩⟩

/-- C6: whenever `__add__` or `__sub__` produces a lens, any field
(kappa, or the `alpha_x`/`alpha_y` pair) absent on either operand is
absent on the result; absent fields are never replaced by arrays.  (The
kappa conjunct is vacuous: a kappa-less operand makes the shape asserts
raise before any lens is produced, so there is never a produced lens
with an absent operand kappa.) -/
theorem C6_absent_fields_stay_absent (A B C : Lens)
    (h : lensAdd A B = .ok C ∨ lensSub A B = .ok C) :
    ((A.kappa = none ∨ B.kappa = none) → C.kappa = none) ∧
    ((A.alpha_x = none ∨ B.alpha_x = none ∨ A.alpha_y = none ∨ B.alpha_y = none) →
      C.alpha_x = none ∧ C.alpha_y = none) := by
  have hf : A.kappa.isSome = true ∧ B.kappa.isSome = true ∧ C.kappa.isSome = true ∧
      ((C.alpha_x = none ∧ C.alpha_y = none) ∨
       (A.alpha_x.isSome = true ∧ B.alpha_x.isSome = true ∧
        A.alpha_y.isSome = true ∧ B.alpha_y.isSome = true ∧
        C.alpha_x.isSome = true ∧ C.alpha_y.isSome = true)) := by
    rcases h with h | h
    · exact lensCombine_fields _ A B C h
    · exact lensCombine_fields _ A B C h
  obtain ⟨hkA, hkB, -, halpha⟩ := hf
  constructor
  · rintro (hnone | hnone) <;> simp [hnone] at hkA hkB
  · intro hmiss
    rcases halpha with ⟨h1, h2⟩ | ⟨h1, h2, h3, h4, -, -⟩
    · exact ⟨h1, h2⟩
    · rcases hmiss with hm | hm | hm | hm <;> simp [hm] at h1 h2 h3 h4

/-- Lenses with attached kappa maps but unequal pixel scales
(0.1 vs 0.2 arcsec/pixel). -/
def cl4a : Lens := { mkLens 1 2 with kappa := some ⟨[100, 100], fun _ _ => 1⟩ }

/-- Second operand with pixel scale 0.2 arcsec/pixel. -/
def cl4b : Lens :=
  { mkLens 1 2 with
    grid := { defaultGrid with pixscale := 2/10 },
    kappa := some ⟨[100, 100], fun _ _ => 1⟩ }

/-- C4: adding or subtracting two lenses with kappa maps attached fails
on the compatibility asserts (the `IncompatibleLenses` failure) whenever
the kappa shapes differ, the pixel scales differ by at least the fixed
absolute tolerance `1e-10`, or the `n`/`n2` factors differ. -/
theorem C4_incompatible_lenses (A B : Lens) (kA kB : Kmap)
    (hA : A.kappa = some kA) (hB : B.kappa = some kB)
    (h : ¬(kA.shape = kB.shape ∧
        |A.grid.pixscale - B.grid.pixscale| < 1 / 10 ^ 10 ∧
        A.grid.n = B.grid.n ∧ A.grid.n2 = B.grid.n2)) :
    lensAdd A B = .error .incompatibleLenses ∧
    lensSub A B = .error .incompatibleLenses := by
  have hg : ¬(kA.shape.length = kB.shape.length ∧ kA.shape = kB.shape ∧
      |A.grid.pixscale - B.grid.pixscale| < 1 / 10 ^ 10 ∧
      A.grid.n = B.grid.n ∧ A.grid.n2 = B.grid.n2) := by
    rintro ⟨-, h2, h3, h4, h5⟩
    exact h ⟨h2, h3, h4, h5⟩
  constructor
  · rw [lensAdd, lensCombine, hA, hB]
    dsimp only
    rw [if_neg hg]
  · rw [lensSub, lensCombine, hA, hB]
    dsimp only
    rw [if_neg hg]

/-- C4 witness: combining the pixel scales 0.1 and 0.2 arcsec/pixel
fails with the compatibility assertion, for both addition and
subtraction. -/
theorem C4_incompatible_lenses_witness :
    lensAdd cl4a cl4b = Except.error LensOpError.incompatibleLenses ∧
    lensSub cl4a cl4b = Except.error LensOpError.incompatibleLenses :=
  C4_incompatible_lenses cl4a cl4b _ _ rfl rfl (by
    rintro ⟨-, habs, -, -⟩
    simp only [cl4a, cl4b, mkLens, defaultGrid] at habs
    rw [abs_sub_lt_iff] at habs
    norm_num at habs)

/-- The deflection pair produced by `combineAlpha` is both-absent or
both-present. -/
theorem combineAlpha_pair_wf (f : ℚ → ℚ → ℚ) (A B : Lens)
    (p : Option Amap × Option Amap) (h : combineAlpha f A B = .ok p) :
    p.1.isSome = p.2.isSome := by
  rcases hax : A.alpha_x with _ | ux
  · rw [combineAlpha, hax] at h
    obtain rfl := (Except.ok.injEq _ _).mp h
    rfl
  rcases hbx : B.alpha_x with _ | vx
  · rw [combineAlpha, hax, hbx] at h
    obtain rfl := (Except.ok.injEq _ _).mp h
    rfl
  rcases hay : A.alpha_y with _ | uy
  · rw [combineAlpha, hax, hbx, hay] at h
    exact Except.noConfusion h
  rcases hby : B.alpha_y with _ | vy
  · rw [combineAlpha, hax, hbx, hay, hby] at h
    exact Except.noConfusion h
  rw [combineAlpha, hax, hbx, hay, hby] at h
  obtain rfl := (Except.ok.injEq _ _).mp h
  rfl

/-- On operands whose deflection pairs are each both-absent or
both-present, `combineAlpha` never raises. -/
theorem combineAlpha_ok (f : ℚ → ℚ → ℚ) (A B : Lens)
    (hWA : A.alpha_x.isSome = A.alpha_y.isSome)
    (hWB : B.alpha_x.isSome = B.alpha_y.isSome) :
    ∃ p, combineAlpha f A B = .ok p := by
  rcases hax : A.alpha_x with _ | ux
  · refine ⟨(none, none), ?_⟩
    rw [combineAlpha, hax]
  rcases hbx : B.alpha_x with _ | vx
  · refine ⟨(none, none), ?_⟩
    rw [combineAlpha, hax, hbx]
  rw [hax] at hWA
  rw [hbx] at hWB
  have hWA2 : A.alpha_y.isSome = true := by rw [← hWA]; rfl
  have hWB2 : B.alpha_y.isSome = true := by rw [← hWB]; rfl
  obtain ⟨uy, hay⟩ := Option.isSome_iff_exists.mp hWA2
  obtain ⟨vy, hby⟩ := Option.isSome_iff_exists.mp hWB2
  refine ⟨(some (combineAmap f ux vx), some (combineAmap f uy vy)), ?_⟩
  rw [combineAlpha, hax, hbx, hay, hby]

/-- Evaluation of `__add__`/`__sub__` when the compatibility asserts
pass: the produced lens, field by field. -/
theorem lensCombine_eval (f : ℚ → ℚ → ℚ) (A B : Lens) (kA kB : Kmap)
    (s0 s1 : ℕ) (hA : A.kappa = some kA) (hB : B.kappa = some kB)
    (hs2 : kA.shape = [s0, s1]) (hsh : kA.shape = kB.shape)
    (hps : |A.grid.pixscale - B.grid.pixscale| < 1 / 10 ^ 10)
    (hn : A.grid.n = B.grid.n) (hn2 : A.grid.n2 = B.grid.n2)
    (axy : Option Amap × Option Amap) (hcomb : combineAlpha f A B = .ok axy) :
    lensCombine f A B = .ok
      { Zd := A.Zd, Zs := A.Zs,
        grid := { NX := s0, NY := s1, pixscale := A.grid.pixscale,
                  n := A.grid.n, n2 := A.grid.n2, offset := 1/2 },
        kappa := some ⟨[s0, s1], fun r c => f (kA.entry r c) (kB.entry r c)⟩,
        alpha_x := axy.1, alpha_y := axy.2, source := none } := by
  obtain ⟨ax, ay⟩ := axy
  rw [lensCombine, hA, hB]
  dsimp only
  rw [if_pos ⟨by rw [hsh], hsh, hps, hn, hn2⟩, hs2]
  dsimp only
  rw [hcomb]

/-- C5: over exact arithmetic, `(A + B) - B` reproduces `A`'s kappa
field exactly, for lenses with attached 2-D kappa maps, compatible
grids, and well-paired deflection fields. -/
theorem C5_add_sub_roundtrip (A B : Lens) (kA kB : Kmap) (s0 s1 : ℕ)
    (hA : A.kappa = some kA) (hB : B.kappa = some kB)
    (hs2 : kA.shape = [s0, s1]) (hsh : kA.shape = kB.shape)
    (hps : |A.grid.pixscale - B.grid.pixscale| < 1 / 10 ^ 10)
    (hn : A.grid.n = B.grid.n) (hn2 : A.grid.n2 = B.grid.n2)
    (hWA : A.alpha_x.isSome = A.alpha_y.isSome)
    (hWB : B.alpha_x.isSome = B.alpha_y.isSome) :
    Except.map Lens.kappa ((lensAdd A B).bind fun C => lensSub C B) =
      Except.ok A.kappa := by
  obtain ⟨shA, enA⟩ := kA
  have hsA : shA = [s0, s1] := hs2
  subst hsA
  obtain ⟨axy1, hcomb1⟩ := combineAlpha_ok (· + ·) A B hWA hWB
  have hadd := lensCombine_eval (· + ·) A B ⟨[s0, s1], enA⟩ kB s0 s1 hA hB
    rfl hsh hps hn hn2 axy1 hcomb1
  have hwf1 := combineAlpha_pair_wf (· + ·) A B axy1 hcomb1
  let CvalE : Lens :=
    { Zd := A.Zd, Zs := A.Zs,
      grid := { NX := s0, NY := s1, pixscale := A.grid.pixscale,
                n := A.grid.n, n2 := A.grid.n2, offset := 1/2 },
      kappa := some ⟨[s0, s1], fun r c => enA r c + kB.entry r c⟩,
      alpha_x := axy1.1, alpha_y := axy1.2, source := none }
  obtain ⟨axy2, hcomb2⟩ := combineAlpha_ok (· - ·) CvalE B hwf1 hWB
  have hsub := lensCombine_eval (· - ·) CvalE B
    ⟨[s0, s1], fun r c => enA r c + kB.entry r c⟩ kB s0 s1 rfl hB rfl
    hsh hps hn hn2 axy2 hcomb2
  rw [lensAdd, hadd]
  show Except.map Lens.kappa (lensSub CvalE B) = Except.ok A.kappa
  rw [lensSub, hsub, hA]
  show Except.ok
      (some (⟨[s0, s1], fun r c => (enA r c + kB.entry r c) - kB.entry r c⟩ : Kmap)) =
    Except.ok (some (⟨[s0, s1], enA⟩ : Kmap))
  have hent : (fun r c => (enA r c + kB.entry r c) - kB.entry r c) = enA := by
    funext r c
    ring
  rw [hent]

/-- Operands of the C5 witness: a non-constant and a constant kappa map
on the (shared) default grid. -/
def cl5a : Lens :=
  { mkLens 1 2 with kappa := some ⟨[2, 2], fun r c => (r : ℚ) + c⟩ }

/-- Second C5 operand. -/
def cl5b : Lens := { mkLens 1 2 with kappa := some ⟨[2, 2], fun _ _ => 1⟩ }

/-- C5 witness: `(cl5a + cl5b) - cl5b` has exactly `cl5a`'s kappa
field. -/
theorem C5_add_sub_roundtrip_witness :
    Except.map Lens.kappa ((lensAdd cl5a cl5b).bind fun C => lensSub C cl5b) =
      Except.ok cl5a.kappa :=
  C5_add_sub_roundtrip cl5a cl5b _ _ 2 2 rfl rfl rfl rfl
    (by
      simp only [cl5a, cl5b, mkLens, defaultGrid]
      rw [abs_sub_lt_iff]
      norm_num)
    rfl rfl rfl rfl

/-- Operands of the C6 witness: kappa maps attached, deflection fields
absent. -/
def cl6a : Lens := { mkLens 1 2 with kappa := some ⟨[2, 2], fun _ _ => 1⟩ }

/-- Second C6 operand. -/
def cl6b : Lens := { mkLens 1 2 with kappa := some ⟨[2, 2], fun _ _ => 2⟩ }

/-- C6 witness: adding two lenses with absent deflection fields yields a
lens whose deflection fields are absent (not zero arrays). -/
theorem C6_absent_fields_stay_absent_witness :
    Except.map (fun C => (C.alpha_x, C.alpha_y)) (lensAdd cl6a cl6b) =
      Except.ok ((none : Option Amap), (none : Option Amap)) := by
  have hcomb : combineAlpha (· + ·) cl6a cl6b = .ok (none, none) := by
    rw [combineAlpha]
    rfl
  have hadd := lensCombine_eval (· + ·) cl6a cl6b _ _ 2 2 rfl rfl rfl rfl
    (by
      simp only [cl6a, cl6b, mkLens, defaultGrid]
      rw [abs_sub_lt_iff]
      norm_num)
    rfl rfl (none, none) hcomb
  have h := (C6_absent_fields_stay_absent cl6a cl6b _
    (Or.inl (show lensAdd cl6a cl6b = _ from hadd))).2 (Or.inl rfl)
  rw [lensAdd, hadd]
  show Except.ok (_, _) = _
  rw [h.1, h.2]

/-- A lens produced by `deflect` has its deflection components both
absent or both present: every `ok` branch assigns the pair together. -/
theorem deflect_ok_alpha_iff (L : Lens) (o : DeflectOracles) (method : String)
    (fast : Bool) (L' : Lens) (h : deflect L o method fast = .ok L') :
    (L'.alpha_x = none ↔ L'.alpha_y = none) := by
  rcases hk : L.kappa with _ | k
  · rw [deflect, hk] at h
    obtain rfl := (Except.ok.injEq _ _).mp h
    simp
  rw [deflect, hk] at h
  dsimp only at h
  split at h
  · split at h
    · obtain rfl := (Except.ok.injEq _ _).mp h
      simp
    · split at h
      · split at h <;>
        · obtain rfl := (Except.ok.injEq _ _).mp h
          simp
      · split at h
        · split at h <;>
          · obtain rfl := (Except.ok.injEq _ _).mp h
            simp
        · obtain rfl := (Except.ok.injEq _ _).mp h
          simp
  · exact Except.noConfusion h

/-- C10: in every state reachable through the public operations,
`alpha_x` is absent exactly when `alpha_y` is absent: no operation sets
or clears one deflection component without the other. -/
theorem C10_alpha_pairing_invariant (L : Lens) (h : Reachable L) :
    (L.alpha_x = none ↔ L.alpha_y = none) := by
  induction h with
  | construct Zd Zs => simp [mkLens]
  | setKappa L k g hL ih => simpa [setKappaOp] using ih
  | deflectStep L o method fast L' hL hok ih =>
      exact deflect_ok_alpha_iff L o method fast L' hok
  | sieDeflect L sx sy hL ih => simp [sieDeflectOp]
  | addStep A B C hA hB hok ihA ihB =>
      rcases (lensCombine_fields _ A B C hok).2.2.2 with ⟨h1, h2⟩ | ⟨-, -, -, -, h5, h6⟩
      · simp [h1, h2]
      · rw [Option.isSome_iff_exists] at h5 h6
        obtain ⟨u, hu⟩ := h5
        obtain ⟨v, hv⟩ := h6
        simp [hu, hv]
  | subStep A B C hA hB hok ihA ihB =>
      rcases (lensCombine_fields _ A B C hok).2.2.2 with ⟨h1, h2⟩ | ⟨-, -, -, -, h5, h6⟩
      · simp [h1, h2]
      · rw [Option.isSome_iff_exists] at h5 h6
        obtain ⟨u, hu⟩ := h5
        obtain ⟨v, hv⟩ := h6
        simp [hu, hv]

/-- C10 witness: the invariant at a freshly constructed lens. -/
theorem C10_alpha_pairing_invariant_witness :
    ((mkLens 1 2).alpha_x = none ↔ (mkLens 1 2).alpha_y = none) :=
  C10_alpha_pairing_invariant (mkLens 1 2) (Reachable.construct 1 2)

end EvilLens
